import Mathlib

/-!
Verification of the intrusion-detection ETL core: a shallow embedding of
`src/transform.py` (log-line parsing, RFC1918 classification, transform state)
and `src/detect_anomalies.py` (the four detectors and the report aggregator),
with theorems settling the specification claims about them.

Modelling conventions:
* Python strings are modelled over ASCII `List Char`; machine floats used by
  pandas for `duration_minutes` / `attempts_per_hour` are modelled exactly in
  `ℚ` (the second-resolution inputs make every quantity rational).
* `datetime` values produced by parsing are records of calendar fields; inside
  the detector layer timestamps are epoch seconds (`ℤ`), which is faithful for
  the second-resolution data the pipeline constructs.
* Fallible Python code (regex non-match, `strptime`/`datetime` `ValueError`,
  `int()` `ValueError`, `IndexError`) is modelled with `Option`.
-/

/-- Authentication status, the regex alternation `(Accepted|Failed)`. -/
inductive Status where
  | Accepted : Status
  | Failed : Status
deriving DecidableEq, BEq

/-- Severity labels used by all four detectors. -/
inductive Severity where
  | MEDIUM : Severity
  | HIGH : Severity
  | CRITICAL : Severity
deriving DecidableEq, BEq

/-- A calendar timestamp as built by `datetime.strptime("%Y %b %d %H:%M:%S")`. -/
structure Timestamp where
  year : Nat
  month : Nat
  day : Nat
  hour : Nat
  minute : Nat
  second : Nat
deriving DecidableEq

/-- One parsed row returned by `LogTransformer.parse_log_line`:
`{timestamp, status, username, source_ip, port, pid}`. -/
structure Record where
  timestamp : Timestamp
  status : Status
  username : String
  source_ip : String
  port : Nat
  pid : Nat
deriving DecidableEq

/- ### Character classes of the regex (ASCII model of Python `\w`, `\d`, `\s`) -/

/-- Python `\s` (ASCII): space, tab, newline, carriage return, vertical tab, form feed. -/
def isSpaceChar (c : Char) : Bool :=
  c = ' ' || c = '\t' || c = '\n' || c = '\r' || c = '\x0b' || c = '\x0c'

/-- Python `\w` (ASCII): letters, digits, underscore. -/
def isWordChar (c : Char) : Bool :=
  c.isAlphanum || c = '_'

/-- The username class `[\w\.\-_]`. -/
def isUserChar (c : Char) : Bool :=
  isWordChar c || c = '.' || c = '-'

/-- The ip class `[\d\.]`. -/
def isIpChar (c : Char) : Bool :=
  c.isDigit || c = '.'

/- ### Deterministic matcher for `LogTransformer.LOG_PATTERN`

The pattern
`(\w+)\s+(\d+)\s+(\d+:\d+:\d+)\s+\w+\s+sshd\[(\d+)\]:\s+(Accepted|Failed)\s+password\s+for\s+([\w\.\-_]+)\s+from\s+([\d\.]+)\s+port\s+(\d+)`
has the property that every greedy run (`\w+`, `\d+`, `\s+`, `[\w\.\-_]+`,
`[\d\.]+`) is immediately followed by a token whose first character is outside
the run's class, so Python's backtracking matcher is equivalent to maximal
munch at each start position; `re.search` then takes the leftmost start
position that matches.  `munch`/`litTok` implement maximal munch, `matchAt`
the match at one position, `searchFrom` the left-to-right search. -/

/-- Greedy `C+` for a character class: the maximal non-empty run, or `none`. -/
def munch (p : Char → Bool) (cs : List Char) : Option (List Char × List Char) :=
  let t := cs.takeWhile p
  if t.isEmpty then none else some (t, cs.dropWhile p)

/-- A literal token of the pattern. -/
def litTok (l : List Char) (cs : List Char) : Option (List Char) :=
  if l.isPrefixOf cs then some (cs.drop l.length) else none

/-- The capture groups of `LOG_PATTERN` (the time capture `(\d+:\d+:\d+)` is
kept as its three digit runs). -/
structure Groups where
  month : List Char
  day : List Char
  hh : List Char
  mi : List Char
  ss : List Char
  pid : List Char
  status : Status
  username : List Char
  ip : List Char
  port : List Char
deriving DecidableEq

/-- The alternation `(Accepted|Failed)`. -/
def matchStatus (cs : List Char) : Option (Status × List Char) :=
  if (("Accepted").data).isPrefixOf cs then some (Status.Accepted, cs.drop 8)
  else if (("Failed").data).isPrefixOf cs then some (Status.Failed, cs.drop 6)
  else none

/-- `(\w+)\s+(\d+)\s+` — month and day groups. -/
def matchMonthDay (cs : List Char) : Option ((List Char × List Char) × List Char) := do
  let r1 ← munch isWordChar cs
  let r2 ← munch isSpaceChar r1.2
  let r3 ← munch Char.isDigit r2.2
  let r4 ← munch isSpaceChar r3.2
  pure ((r1.1, r3.1), r4.2)

/-- `(\d+:\d+:\d+)\s+` — the time capture, as its three digit runs. -/
def matchTime (cs : List Char) : Option ((List Char × List Char × List Char) × List Char) := do
  let r1 ← munch Char.isDigit cs
  let r2 ← litTok [':'] r1.2
  let r3 ← munch Char.isDigit r2
  let r4 ← litTok [':'] r3.2
  let r5 ← munch Char.isDigit r4
  let r6 ← munch isSpaceChar r5.2
  pure ((r1.1, r3.1, r5.1), r6.2)

/-- `\w+\s+sshd\[(\d+)\]:\s+` — host token and pid group. -/
def matchHostPid (cs : List Char) : Option (List Char × List Char) := do
  let r1 ← munch isWordChar cs
  let r2 ← munch isSpaceChar r1.2
  let r3 ← litTok (("sshd[").data) r2.2
  let r4 ← munch Char.isDigit r3
  let r5 ← litTok (("]:").data) r4.2
  let r6 ← munch isSpaceChar r5
  pure (r4.1, r6.2)

/-- `(Accepted|Failed)\s+password\s+for\s+` — status group. -/
def matchStatusFor (cs : List Char) : Option (Status × List Char) := do
  let r1 ← matchStatus cs
  let r2 ← munch isSpaceChar r1.2
  let r3 ← litTok (("password").data) r2.2
  let r4 ← munch isSpaceChar r3
  let r5 ← litTok (("for").data) r4.2
  let r6 ← munch isSpaceChar r5
  pure (r1.1, r6.2)

/-- `([\w\.\-_]+)\s+from\s+` — username group. -/
def matchUserFrom (cs : List Char) : Option (List Char × List Char) := do
  let r1 ← munch isUserChar cs
  let r2 ← munch isSpaceChar r1.2
  let r3 ← litTok (("from").data) r2.2
  let r4 ← munch isSpaceChar r3
  pure (r1.1, r4.2)

/-- `([\d\.]+)\s+port\s+(\d+)` — ip and port groups. -/
def matchIpPort (cs : List Char) : Option (List Char × List Char) := do
  let r1 ← munch isIpChar cs
  let r2 ← munch isSpaceChar r1.2
  let r3 ← litTok (("port").data) r2.2
  let r4 ← munch isSpaceChar r3
  let r5 ← munch Char.isDigit r4.2
  pure (r1.1, r5.1)

/-- Match `LOG_PATTERN` at the start of `cs` (maximal munch — see above). -/
def matchAt (cs : List Char) : Option Groups := do
  let a ← matchMonthDay cs
  let b ← matchTime a.2
  let c ← matchHostPid b.2
  let d ← matchStatusFor c.2
  let e ← matchUserFrom d.2
  let f ← matchIpPort e.2
  pure ⟨a.1.1, a.1.2, b.1.1, b.1.2.1, b.1.2.2, c.1, d.1, e.1, f.1, f.2⟩

/-- `re.search`: try every start position left to right (`LOG_PATTERN.search`). -/
def searchFrom : List Char → Option Groups
  | [] => matchAt []
  | cs@(_ :: rest) =>
    match matchAt cs with
    | some g => some g
    | none => searchFrom rest

/-- The regex search performed by `parse_log_line` on the whole line. -/
def regexSearch (line : String) : Option Groups :=
  searchFrom line.data

/- ### `strptime("%Y %b %d %H:%M:%S")` + `datetime` validation -/

/-- Numeric value of a digit run. -/
def digitsVal (cs : List Char) : Nat :=
  cs.foldl (fun a c => a * 10 + (c.toNat - 48)) 0

/-- `%b`: case-insensitive month abbreviation. -/
def monthNum (cs : List Char) : Option Nat :=
  match cs.map Char.toLower with
  | ['j', 'a', 'n'] => some 1
  | ['f', 'e', 'b'] => some 2
  | ['m', 'a', 'r'] => some 3
  | ['a', 'p', 'r'] => some 4
  | ['m', 'a', 'y'] => some 5
  | ['j', 'u', 'n'] => some 6
  | ['j', 'u', 'l'] => some 7
  | ['a', 'u', 'g'] => some 8
  | ['s', 'e', 'p'] => some 9
  | ['o', 'c', 't'] => some 10
  | ['n', 'o', 'v'] => some 11
  | ['d', 'e', 'c'] => some 12
  | _ => none

/-- Proleptic Gregorian leap year (Python `datetime`). -/
def isLeapYear (y : Nat) : Bool :=
  y % 4 = 0 && (y % 100 ≠ 0 || y % 400 = 0)

/-- Days in a month of a year (Python `datetime`). -/
def daysInMonth (y m : Nat) : Nat :=
  if m = 2 then (if isLeapYear y then 29 else 28)
  else if m = 4 || m = 6 || m = 9 || m = 11 then 30
  else 31

/-- Success condition of
`datetime.strptime(f"{year} {month} {day} {time}", "%Y %b %d %H:%M:%S")`:
`%Y` consumes exactly four digits (so the supplied year must be 1000–9999);
`%b` needs a valid month abbreviation; `%d`, `%H`, `%M`, `%S` consume at most
two digits and the `datetime` constructor bounds them (day by the month's
length, hour ≤ 23, minute ≤ 59, second ≤ 59 — `%S` alone would admit leap
seconds 60/61 but the constructor then raises, which the code catches). -/
def validDate (year : Nat) (g : Groups) : Bool :=
  1000 ≤ year && year ≤ 9999 &&
  (match monthNum g.month with
   | none => false
   | some m =>
     g.day.length ≤ 2 && 1 ≤ digitsVal g.day && digitsVal g.day ≤ daysInMonth year m) &&
  g.hh.length ≤ 2 && digitsVal g.hh ≤ 23 &&
  g.mi.length ≤ 2 && digitsVal g.mi ≤ 59 &&
  g.ss.length ≤ 2 && digitsVal g.ss ≤ 59

/-- The record built from a successful match and timestamp conversion. -/
def recordOfGroups (year : Nat) (g : Groups) : Record :=
  { timestamp :=
      { year := year
        month := (monthNum g.month).getD 0
        day := digitsVal g.day
        hour := digitsVal g.hh
        minute := digitsVal g.mi
        second := digitsVal g.ss }
    status := g.status
    username := String.mk g.username
    source_ip := String.mk g.ip
    port := digitsVal g.port
    pid := digitsVal g.pid }

/-- `LogTransformer.parse_log_line` (pure result): regex-search the line,
then convert the timestamp; `None` on non-match or on a `ValueError` from
`strptime`/`datetime` (both caught in the source). -/
def parse_log_line (year : Nat) (line : String) : Option Record :=
  match regexSearch line with
  | none => none
  | some g => if validDate year g then some (recordOfGroups year g) else none

/- ### `LogTransformer` state and `transform_logs` -/

/-- Python `str.strip()` over the ASCII whitespace set. -/
def pyStrip (cs : List Char) : List Char :=
  ((cs.dropWhile isSpaceChar).reverse.dropWhile isSpaceChar).reverse

/-- Suffix appended to a failed sample when the regex matched but the
timestamp conversion raised; the Python exception text is abstracted. -/
def errSuffix : String := " [Error: invalid date]"

/-- The text stored in `failed_samples` for a rejected line: the stripped line
on regex non-match, the stripped line plus an error tag on a `ValueError`
from the timestamp conversion (`parse_log_line`, both `return None` paths). -/
def sampleText (year : Nat) (line : String) : String :=
  match regexSearch line with
  | none => String.mk (pyStrip line.data)
  | some g =>
    if validDate year g then String.mk (pyStrip line.data)
    else String.mk (pyStrip line.data) ++ errSuffix

/-- The mutable counters of `LogTransformer`: `parsed_count`, `failed_count`,
`failed_samples` (set up by `__init__` as `0, 0, []`). -/
structure TState where
  parsed_count : Nat
  failed_count : Nat
  failed_samples : List String
deriving DecidableEq

/-- `LogTransformer.__init__` counters. -/
def initTState : TState := ⟨0, 0, []⟩

/-- One iteration of the `transform_logs` loop: `parse_log_line` appends a
sample when it fails while `failed_count < 5` (checked before the increment),
then `transform_logs` bumps the corresponding counter and, on success,
appends the parsed row. -/
def transform_step (year : Nat) (p : TState × List Record) (line : String) :
    TState × List Record :=
  match parse_log_line year line with
  | some r =>
    (⟨p.1.parsed_count + 1, p.1.failed_count, p.1.failed_samples⟩, p.2 ++ [r])
  | none =>
    (⟨p.1.parsed_count,
      p.1.failed_count + 1,
      if p.1.failed_count < 5
      then p.1.failed_samples ++ [sampleText year line]
      else p.1.failed_samples⟩, p.2)

/-- `LogTransformer.transform_logs`: fold the parse loop over the raw lines;
the returned rows are the parsed records (the empty-result branch returns an
empty frame, i.e. no rows, which coincides with the fold's row list). -/
def transform_logs (year : Nat) (raw_logs : List String) : TState × List Record :=
  raw_logs.foldl (transform_step year) (initTState, [])

/-- The rejected lines of an input batch, in input order. -/
def rejectedLines (year : Nat) (lines : List String) : List String :=
  lines.filter (fun l => (parse_log_line year l).isNone)

/- ### `LogTransformer._is_internal_ip` -/

/-- Python `str.split(sep)` for a one-character separator: all fields,
empty fields kept. -/
def pySplit (sep : Char) : List Char → List (List Char)
  | [] => [[]]
  | c :: cs =>
    if c = sep then [] :: pySplit sep cs
    else match pySplit sep cs with
      | [] => [[c]]
      | f :: r => (c :: f) :: r

/-- Digit runs with single underscores between them, the digit part of a
Python `int()` literal (ASCII model): value of `d (\_? d)*`. -/
def pyDigitsAux (acc : Nat) : List Char → Option Nat
  | [] => some acc
  | '_' :: c :: cs =>
    if c.isDigit then pyDigitsAux (acc * 10 + (c.toNat - 48)) cs else none
  | ['_'] => none
  | c :: cs =>
    if c.isDigit then pyDigitsAux (acc * 10 + (c.toNat - 48)) cs else none

/-- Python `int(s)` on a string (ASCII model): surrounding whitespace, an
optional sign, then underscore-grouped digits; `none` models `ValueError`. -/
def pyIntParse (s : List Char) : Option Int :=
  match pyStrip s with
  | '+' :: rest =>
    match rest with
    | c :: cs => if c.isDigit then (pyDigitsAux (c.toNat - 48) cs).map Int.ofNat else none
    | [] => none
  | '-' :: rest =>
    match rest with
    | c :: cs => if c.isDigit then (pyDigitsAux (c.toNat - 48) cs).map (fun n => -(n : Int)) else none
    | [] => none
  | c :: cs => if c.isDigit then (pyDigitsAux (c.toNat - 48) cs).map Int.ofNat else none
  | [] => none

/-- `LogTransformer._is_internal_ip`: textual-prefix tests for `192.168.` and
`10.`, and for `172.` the second dot-separated field is parsed with `int`
(both `IndexError` and `ValueError` give `False`) and checked against
`16 ≤ n ≤ 31`. -/
def _is_internal_ip (ip : String) : Bool :=
  if (("192.168.").data).isPrefixOf ip.data || (("10.").data).isPrefixOf ip.data then
    true
  else if (("172.").data).isPrefixOf ip.data then
    match (pySplit '.' ip.data).get? 1 with
    | none => false
    | some fld =>
      match pyIntParse fld with
      | none => false
      | some n => decide (16 ≤ n ∧ n ≤ 31)
  else false

/-- Modelled from the spec: a "clean dotted-decimal" IPv4 literal — four
dot-separated fields, each a non-empty digit run without leading zeros whose
value is at most 255.  (This predicate renders the spec's words for the
refinement comparison in claim C4; the source has no such check.) -/
def isCleanDottedDecimal (ip : String) : Bool :=
  let parts := pySplit '.' ip.data
  parts.length = 4 &&
  parts.all (fun p =>
    !p.isEmpty && p.all Char.isDigit &&
    (p.length = 1 || p.head? ≠ some '0') &&
    digitsVal p ≤ 255)

/-- Octet-level RFC1918 membership of a clean dotted-decimal literal
(10.0.0.0/8, 172.16.0.0/12, 192.168.0.0/16), rendered from the spec's words. -/
def inRFC1918 (ip : String) : Bool :=
  match pySplit '.' ip.data with
  | [a, b, _, _] =>
    digitsVal a = 10 ||
    (digitsVal a = 172 && 16 ≤ digitsVal b && digitsVal b ≤ 31) ||
    (digitsVal a = 192 && digitsVal b = 168)
  | _ => false

/- ### EventSet and the `IntrusionDetector` rule engine

The detector layer consumes the transformed frame.  An `Event` is one row;
its timestamp is in epoch seconds (`ℤ`), faithful to the second-resolution
datetimes the pipeline constructs, and the derived frame columns
`is_failed_login` / `is_internal_ip` are the derived functions below, exactly
as `transform_logs` fills them from `status` and `source_ip`. -/

/-- One row of the transformed frame, as consumed by the detectors. -/
structure Event where
  timestamp : Int
  status : Status
  username : String
  source_ip : String
  port : Nat
  pid : Nat
deriving DecidableEq

/-- The derived column `is_failed_login = (status == 'Failed')`. -/
def is_failed_login (e : Event) : Bool :=
  e.status = Status.Failed

/-- Days from year 1 to the start of year `y` (proleptic Gregorian). -/
def daysBeforeYear (y : Nat) : Nat :=
  365 * (y - 1) + (y - 1) / 4 - (y - 1) / 100 + (y - 1) / 400

/-- Days in year `y` strictly before month `m`. -/
def daysBeforeMonth (y m : Nat) : Nat :=
  (List.range (m - 1)).foldl (fun a i => a + daysInMonth y (i + 1)) 0

/-- Epoch seconds of a timestamp (days counted in the proleptic Gregorian
calendar, the arithmetic `pandas`/`datetime` subtraction uses). -/
def toEpochSeconds (t : Timestamp) : Nat :=
  ((daysBeforeYear t.year + daysBeforeMonth t.year t.month + (t.day - 1)) * 24
    + t.hour) * 3600 + t.minute * 60 + t.second

/-- The `EventNormalizer` step: a parsed record becomes a frame row. -/
def eventOfRecord (r : Record) : Event :=
  { timestamp := (toEpochSeconds r.timestamp : Int)
    status := r.status
    username := r.username
    source_ip := r.source_ip
    port := r.port
    pid := r.pid }

/-- `IntrusionDetector.__init__` thresholds. -/
structure DetectorConfig where
  brute_force_threshold : Nat
  time_window_minutes : Nat
deriving DecidableEq

/-- The constructor defaults `brute_force_threshold=10, time_window_minutes=60`. -/
def defaultConfig : DetectorConfig := ⟨10, 60⟩

/- #### `detect_brute_force` -/

/-- The Failed rows of one source ip (the `groupby('source_ip')` group of
`failed_logins`). -/
def failedEventsOf (evs : List Event) (ip : String) : List Event :=
  evs.filter (fun e => is_failed_login e && e.source_ip = ip)

/-- Minimum of a list of integers (only used on non-empty lists). -/
def listMin : List Int → Int
  | [] => 0
  | x :: xs => xs.foldl min x

/-- Maximum of a list of integers (only used on non-empty lists). -/
def listMax : List Int → Int
  | [] => 0
  | x :: xs => xs.foldl max x

/-- `'timestamp': 'min'` aggregate — the group's first attempt. -/
def firstAttempt (evs : List Event) (ip : String) : Int :=
  listMin ((failedEventsOf evs ip).map (fun e => e.timestamp))

/-- `'timestamp': 'max'` aggregate — the group's last attempt. -/
def lastAttempt (evs : List Event) (ip : String) : Int :=
  listMax ((failedEventsOf evs ip).map (fun e => e.timestamp))

/-- `duration_minutes = (last_attempt - first_attempt).total_seconds() / 60`. -/
def duration_minutes (evs : List Event) (ip : String) : ℚ :=
  ((lastAttempt evs ip - firstAttempt evs ip : Int) : ℚ) / 60

/-- `attempts_per_hour = failed_count / (duration_minutes/60)` when
`duration_minutes > 0`, else `failed_count` (the `np.where` guard). -/
def attempts_per_hour (evs : List Event) (ip : String) : ℚ :=
  if 0 < duration_minutes evs ip
  then ((failedEventsOf evs ip).length : ℚ) / (duration_minutes evs ip / 60)
  else ((failedEventsOf evs ip).length : ℚ)

/-- The brute-force filter:
`failed_count >= threshold` or
(`attempts_per_hour >= threshold/2` and `duration_minutes <= time_window`). -/
def bruteForceFlag (cfg : DetectorConfig) (evs : List Event) (ip : String) : Bool :=
  decide (cfg.brute_force_threshold ≤ (failedEventsOf evs ip).length) ||
  (decide ((cfg.brute_force_threshold : ℚ) / 2 ≤ attempts_per_hour evs ip) &&
   decide (duration_minutes evs ip ≤ (cfg.time_window_minutes : ℚ)))

/-- `pd.cut(failed_count, bins=[0,25,50,inf], labels=[MEDIUM,HIGH,CRITICAL])`. -/
def bruteForceSeverity (failed_count : Nat) : Severity :=
  if failed_count ≤ 25 then Severity.MEDIUM
  else if failed_count ≤ 50 then Severity.HIGH
  else Severity.CRITICAL

/-- One row of the brute-force result frame. -/
structure BruteForceRow where
  source_ip : String
  failed_count : Nat
  first_attempt : Int
  last_attempt : Int
  targeted_users : List String
  duration_minutes : ℚ
  attempts_per_hour : ℚ
  severity : Severity
  num_users_targeted : Nat
deriving DecidableEq

/-- The distinct source ips of the Failed rows — the group keys of
`failed_logins.groupby('source_ip')` (key order is irrelevant to the claims,
so the last-occurrence `dedup` order is used). -/
def failedIps (evs : List Event) : List String :=
  ((evs.filter is_failed_login).map (fun e => e.source_ip)).dedup

/-- The brute-force row built for one flagged group. -/
def mkBruteForceRow (evs : List Event) (ip : String) : BruteForceRow :=
  { source_ip := ip
    failed_count := (failedEventsOf evs ip).length
    first_attempt := firstAttempt evs ip
    last_attempt := lastAttempt evs ip
    targeted_users := ((failedEventsOf evs ip).map (fun e => e.username)).dedup
    duration_minutes := duration_minutes evs ip
    attempts_per_hour := attempts_per_hour evs ip
    severity := bruteForceSeverity (failedEventsOf evs ip).length
    num_users_targeted := ((failedEventsOf evs ip).map (fun e => e.username)).dedup.length }

/-- `IntrusionDetector.detect_brute_force`: group Failed rows by ip, keep the
groups passing `bruteForceFlag`, decorate with severity and user counts. -/
def detect_brute_force (cfg : DetectorConfig) (evs : List Event) : List BruteForceRow :=
  (failedIps evs).filterMap (fun ip =>
    if bruteForceFlag cfg evs ip then some (mkBruteForceRow evs ip) else none)

/- #### `detect_unusual_usernames` -/

/-- The fixed `vulnerable_accounts` list. -/
def vulnerable_accounts : List String :=
  [("root"), ("admin"), ("test"), ("oracle"), ("postgres"),
   ("mysql"), ("ubuntu"), ("user"), ("guest"), ("ftp")]

/-- Number of Failed rows of one `(source_ip, username)` pair. -/
def pairAttempts (evs : List Event) (ip user : String) : Nat :=
  (evs.filter (fun e => is_failed_login e && e.source_ip = ip && e.username = user)).length

/-- One row of the vulnerable-account result frame. -/
structure VulnerableRow where
  source_ip : String
  username : String
  attempts : Nat
  severity : Severity
deriving DecidableEq

/-- The distinct `(source_ip, username)` keys of the filtered frame
`df[username.isin(vulnerable_accounts) & is_failed_login]`. -/
def vulnerablePairs (evs : List Event) : List (String × String) :=
  ((evs.filter (fun e => is_failed_login e && decide (e.username ∈ vulnerable_accounts))).map
    (fun e => (e.source_ip, e.username))).dedup

/-- `IntrusionDetector.detect_unusual_usernames`: group the filtered frame by
`(source_ip, username)`, keep `attempts >= 5`, severity by `attempts > 20`. -/
def detect_unusual_usernames (evs : List Event) : List VulnerableRow :=
  (vulnerablePairs evs).filterMap (fun p =>
    let n := pairAttempts evs p.1 p.2
    if 5 ≤ n then
      some { source_ip := p.1, username := p.2, attempts := n,
             severity := if 20 < n then Severity.HIGH else Severity.MEDIUM }
    else none)

/- #### `detect_geographic_anomalies` -/

/-- The ordered `suspicious_ranges` prefix table (Python dicts preserve
insertion order, so iteration is in this order). -/
def suspicious_ranges : List (List Char × String) :=
  [(("45.").data, ("Eastern Europe")),
   (("103.").data, ("Southeast Asia")),
   (("185.").data, ("Europe/Tor")),
   (("91.").data, ("Central Asia")),
   (("196.").data, ("Africa")),
   (("41.").data, ("Africa"))]

/-- First matching entry of the prefix table for an ip (`ip.startswith`,
first match in table order wins, then `break`). -/
def suspiciousLocation (ip : String) : Option String :=
  (suspicious_ranges.find? (fun pr => pr.1.isPrefixOf ip.data)).map (fun pr => pr.2)

/-- One row of the geographic result frame. -/
structure GeoRow where
  source_ip : String
  location : String
  total_attempts : Nat
  failed_attempts : Nat
  success_attempts : Nat
  severity : Severity
deriving DecidableEq

/-- The distinct external ips: `df[~df['is_internal_ip']]['source_ip'].unique()`
(the frame's `is_internal_ip` column is `_is_internal_ip` of the ip text). -/
def externalIps (evs : List Event) : List String :=
  ((evs.filter (fun e => !_is_internal_ip e.source_ip)).map (fun e => e.source_ip)).dedup

/-- All rows of one ip (`df[df['source_ip'] == ip]`). -/
def ipEvents (evs : List Event) (ip : String) : List Event :=
  evs.filter (fun e => e.source_ip = ip)

/-- `IntrusionDetector.detect_geographic_anomalies`: for each distinct
external ip, take the first matching prefix (if any) and aggregate over all
of that ip's rows; each qualifying ip contributes exactly one row. -/
def detect_geographic_anomalies (evs : List Event) : List GeoRow :=
  (externalIps evs).filterMap (fun ip =>
    match suspiciousLocation ip with
    | none => none
    | some loc =>
      let attempts := (ipEvents evs ip).length
      let failed := ((ipEvents evs ip).filter is_failed_login).length
      some { source_ip := ip
             location := loc
             total_attempts := attempts
             failed_attempts := failed
             success_attempts := attempts - failed
             severity := if 10 < failed then Severity.HIGH else Severity.MEDIUM })

/- #### `detect_successful_after_many_failures` -/

/-- Stable insertion by timestamp: an element is placed after every
already-placed element with a strictly smaller timestamp and before the
equal-timestamp ones, which came later in input order. -/
def insertByTime (e : Event) : List Event → List Event
  | [] => [e]
  | x :: xs => if x.timestamp < e.timestamp then x :: insertByTime e xs else e :: x :: xs

/-- Stable sort by timestamp, ties kept in original input order — the
multi-key `sort_values(['source_ip','timestamp'])` (pandas uses a stable
lexsort for multi-column keys) restricted to one ip's rows. -/
def sortByTime : List Event → List Event
  | [] => []
  | e :: es => insertByTime e (sortByTime es)

/-- One ip's rows in chronological order (input order on ties). -/
def sortedIpEvents (evs : List Event) (ip : String) : List Event :=
  sortByTime (ipEvents evs ip)

/-- Number of leading rows with `cumsum_success == 0`: the rows strictly
before the ip's first Accepted row (all of them Failed). -/
def preSuccessCount : List Event → Nat
  | [] => 0
  | e :: es => if is_failed_login e then preSuccessCount es + 1 else 0

/-- `df_sorted[~is_failed_login].groupby('source_ip').first()` — the first
successful row of one ip in sorted order. -/
def firstAccepted (l : List Event) : Option Event :=
  l.find? (fun e => !is_failed_login e)

/-- One row of the breach result frame. -/
structure BreachRow where
  source_ip : String
  username : String
  failed_attempts_before_success : Nat
  breach_timestamp : Int
  severity : Severity
deriving DecidableEq

/-- The distinct source ips of the frame (`pre_success.index` is a subset of
these; ips outside it fail the `failed_count >= 5` test anyway). -/
def allIps (evs : List Event) : List String :=
  (evs.map (fun e => e.source_ip)).dedup

/-- `IntrusionDetector.detect_successful_after_many_failures`: per ip, count
the Failed rows before the first success; emit when the count is ≥ 5 and a
success exists; severity CRITICAL when the count exceeds 20. -/
def detect_successful_after_many_failures (evs : List Event) : List BreachRow :=
  (allIps evs).filterMap (fun ip =>
    (firstAccepted (sortedIpEvents evs ip)).bind (fun e =>
      if 5 ≤ preSuccessCount (sortedIpEvents evs ip) then
        some { source_ip := ip
               username := e.username
               failed_attempts_before_success := preSuccessCount (sortedIpEvents evs ip)
               breach_timestamp := e.timestamp
               severity := if 20 < preSuccessCount (sortedIpEvents evs ip)
                           then Severity.CRITICAL else Severity.HIGH }
      else none))

/- #### `generate_full_report` -/

/-- The report: the four result collections plus the `summary` dict, the
latter modelled as a key/value list in insertion order. -/
structure Report where
  brute_force_attacks : List BruteForceRow
  vulnerable_account_targeting : List VulnerableRow
  geographic_anomalies : List GeoRow
  possible_breaches : List BreachRow
  summary : List (String × Nat)
deriving DecidableEq

/-- `IntrusionDetector.generate_full_report`: an empty frame short-circuits
to a zeroed report whose summary has only the two headline keys; otherwise
all four detectors run and the summary carries the headline numbers plus the
four per-type counts. -/
def generate_full_report (cfg : DetectorConfig) (evs : List Event) : Report :=
  match evs with
  | [] =>
    { brute_force_attacks := []
      vulnerable_account_targeting := []
      geographic_anomalies := []
      possible_breaches := []
      summary := [(("total_anomalies"), 0), (("critical_threats"), 0)] }
  | _ :: _ =>
    let brute_force := detect_brute_force cfg evs
    let vulnerable := detect_unusual_usernames evs
    let geo := detect_geographic_anomalies evs
    let breaches := detect_successful_after_many_failures evs
    let critical_count := breaches.length +
      brute_force.countP (fun r => r.severity = Severity.CRITICAL)
    { brute_force_attacks := brute_force
      vulnerable_account_targeting := vulnerable
      geographic_anomalies := geo
      possible_breaches := breaches
      summary :=
        [(("total_anomalies"),
          brute_force.length + vulnerable.length + geo.length + breaches.length),
         (("critical_threats"), critical_count),
         (("brute_force_count"), brute_force.length),
         (("vulnerable_account_count"), vulnerable.length),
         (("geographic_count"), geo.length),
         (("breach_count"), breaches.length)] }

/- ### Concrete inputs used by witnesses and counterexamples -/

def lineW : String :=
  "Jan 14 10:23:45 server sshd[1234]: Accepted password for john.doe from 192.168.1.10 port 54322 ssh2"

def lineFoo : String :=
  "Foo 1 10:00:00 host sshd[7]: Failed password for alice from 1.2.3.4 port 22"

def eventW : Event :=
  { timestamp := 0, status := Status.Failed, username := ("guestx"),
    source_ip := ("9.9.9.9"), port := 22, pid := 77 }

def evsBF : List Event :=
  [{ timestamp := 1000, status := Status.Failed, username := ("root"),
     source_ip := ("5.5.5.5"), port := 1, pid := 1 },
   { timestamp := 1000, status := Status.Failed, username := ("admin"),
     source_ip := ("5.5.5.5"), port := 2, pid := 2 }]

/- ### Helper lemmas -/

/-- Counting rows with a given key in a per-key generated row list: keyed
`filterMap` over duplicate-free keys yields exactly one row for a key that is
present and generates, none otherwise. -/
theorem countP_filterMap_keyed {α β : Type} [DecidableEq α] (key : β → α)
    (f : α → Option β) (hf : ∀ a b, f a = some b → key b = a) :
    ∀ (l : List α), l.Nodup → ∀ (a : α),
      (l.filterMap f).countP (fun b => decide (key b = a)) =
        if a ∈ l ∧ (f a).isSome then 1 else 0 := by
  intro l
  induction l with
  | nil => intro _ a; simp
  | cons x xs ih =>
    intro hnd a
    rw [List.nodup_cons] at hnd
    obtain ⟨hx, hnd'⟩ := hnd
    rw [List.filterMap_cons]
    cases hfx : f x with
    | none =>
      rw [ih hnd' a]
      by_cases hax : a = x
      · subst hax
        simp [hfx, hx]
      · simp [List.mem_cons, hax]
    | some b =>
      rw [List.countP_cons, ih hnd' a]
      have hkb : key b = x := hf x b hfx
      by_cases hax : a = x
      · subst hax
        simp [hkb, hfx, hx]
      · have : ¬ key b = a := by rw [hkb]; exact fun h => hax h.symm
        simp [this, List.mem_cons, hax]

/-- Insertion keeps exactly the members. -/
theorem mem_insertByTime (x e : Event) (l : List Event) :
    x ∈ insertByTime e l ↔ x = e ∨ x ∈ l := by
  induction l with
  | nil => simp [insertByTime]
  | cons y ys ih =>
    simp only [insertByTime]
    by_cases h : y.timestamp < e.timestamp
    · rw [if_pos h]
      simp only [List.mem_cons, ih]
      exact or_left_comm
    · rw [if_neg h]
      exact List.mem_cons

/-- The stable sort keeps exactly the members. -/
theorem mem_sortByTime (x : Event) (l : List Event) :
    x ∈ sortByTime l ↔ x ∈ l := by
  induction l with
  | nil => simp [sortByTime]
  | cons y ys ih => simp [sortByTime, mem_insertByTime, ih, List.mem_cons]

/-- The first Accepted row sits right after the pre-success run. -/
theorem firstAccepted_eq_head_drop (l : List Event) :
    firstAccepted l = (l.drop (preSuccessCount l)).head? := by
  induction l with
  | nil => simp [firstAccepted, preSuccessCount]
  | cons e es ih =>
    by_cases h : is_failed_login e
    · simp [firstAccepted, preSuccessCount, h, List.find?_cons] at ih ⊢
      exact ih
    · simp [firstAccepted, preSuccessCount, h, List.find?_cons]

/-- Every row of the pre-success run is Failed. -/
theorem take_preSuccessCount_all_failed (l : List Event) :
    (l.take (preSuccessCount l)).all is_failed_login = true := by
  induction l with
  | nil => simp [preSuccessCount]
  | cons e es ih =>
    by_cases h : is_failed_login e
    · simp [preSuccessCount, h, List.take_succ_cons, ih]
    · simp [preSuccessCount, h]

/-- The left-to-right search succeeds exactly when some start position
matches. -/
theorem searchFrom_isSome_iff (cs : List Char) :
    (searchFrom cs).isSome = true ↔ ∃ n, (matchAt (cs.drop n)).isSome = true := by
  induction cs with
  | nil =>
    simp only [searchFrom, List.drop_nil]
    exact ⟨fun h => ⟨0, h⟩, fun ⟨_, h⟩ => h⟩
  | cons c rest ih =>
    simp only [searchFrom]
    cases hm : matchAt (c :: rest) with
    | some g =>
      constructor
      · intro _; exact ⟨0, by simp [hm]⟩
      · intro _; rfl
    | none =>
      rw [ih]
      constructor
      · rintro ⟨n, hn⟩
        exact ⟨n + 1, by simpa using hn⟩
      · rintro ⟨n, hn⟩
        cases n with
        | zero => rw [List.drop_zero] at hn; rw [hm] at hn; simp at hn
        | succ m => exact ⟨m, by simpa using hn⟩

/-- Full specification of the `transform_logs` fold from an arbitrary start
state: rows are the parsed records in order, the counters add the numbers of
parsed/rejected lines, and samples are appended for the first
`5 - failed_count` rejections. -/
theorem transform_foldl_spec (year : Nat) :
    ∀ (lines : List String) (st : TState) (acc : List Record),
      lines.foldl (transform_step year) (st, acc) =
        (⟨st.parsed_count + (lines.filterMap (parse_log_line year)).length,
          st.failed_count + (rejectedLines year lines).length,
          st.failed_samples ++
            ((rejectedLines year lines).take (5 - st.failed_count)).map
              (sampleText year)⟩,
         acc ++ lines.filterMap (parse_log_line year)) := by
  intro lines
  induction lines with
  | nil => intro st acc; simp [rejectedLines]
  | cons l ls ih =>
    intro st acc
    rw [List.foldl_cons]
    cases hp : parse_log_line year l with
    | some r =>
      have hstep : transform_step year (st, acc) l =
          (⟨st.parsed_count + 1, st.failed_count, st.failed_samples⟩, acc ++ [r]) := by
        simp [transform_step, hp]
      rw [hstep, ih]
      have hrej : rejectedLines year (l :: ls) = rejectedLines year ls := by
        simp [rejectedLines, List.filter_cons, hp]
      have hfm : (l :: ls).filterMap (parse_log_line year) =
          r :: ls.filterMap (parse_log_line year) := by
        simp [List.filterMap_cons, hp]
      rw [hrej, hfm]
      simp only [List.length_cons, Prod.mk.injEq, TState.mk.injEq]
      refine ⟨⟨by omega, trivial, trivial⟩, by simp⟩
    | none =>
      have hstep : transform_step year (st, acc) l =
          (⟨st.parsed_count, st.failed_count + 1,
            if st.failed_count < 5
            then st.failed_samples ++ [sampleText year l]
            else st.failed_samples⟩, acc) := by
        simp [transform_step, hp]
      rw [hstep, ih]
      have hrej : rejectedLines year (l :: ls) = l :: rejectedLines year ls := by
        simp [rejectedLines, List.filter_cons, hp]
      have hfm : (l :: ls).filterMap (parse_log_line year) =
          ls.filterMap (parse_log_line year) := by
        simp [List.filterMap_cons, hp]
      rw [hrej, hfm]
      simp only [List.length_cons, Prod.mk.injEq, TState.mk.injEq]
      refine ⟨⟨trivial, by omega, ?_⟩, trivial⟩
      by_cases h5 : st.failed_count < 5
      · rw [if_pos h5]
        have h : 5 - st.failed_count = (5 - (st.failed_count + 1)) + 1 := by omega
        rw [h, List.take_succ_cons, List.map_cons, List.append_assoc]
        rfl
      · rw [if_neg h5]
        have h0 : 5 - st.failed_count = 0 := by omega
        have h1 : 5 - (st.failed_count + 1) = 0 := by omega
        rw [h0, h1]
        simp

/- ### Claim theorems -/

/-- C9: over any input sequence of raw lines, the returned rows are exactly
the successfully parsed records in input order (rejected lines never enter
the EventSet), the failure counter equals the number of rejected lines, and
the diagnostic buffer holds at most 5 entries — the samples of exactly the
first 5 rejected lines in input order. -/
theorem transform_logs_reject_invariants (year : Nat) (lines : List String) :
    (transform_logs year lines).2 = lines.filterMap (parse_log_line year) ∧
    (transform_logs year lines).1.failed_count = (rejectedLines year lines).length ∧
    (transform_logs year lines).1.failed_samples.length ≤ 5 ∧
    (transform_logs year lines).1.failed_samples =
      ((rejectedLines year lines).take 5).map (sampleText year) := by
  have h := transform_foldl_spec year lines initTState []
  rw [transform_logs, h]
  refine ⟨by simp, by simp [initTState], ?_, by simp [initTState]⟩
  simp only [initTState, List.nil_append, List.length_map, List.length_take]
  omega

/-- C3 (counterexample): `lineW` matches the pattern and carries the valid
calendar date Jan 14, as witnessed by it parsing under year 2026; yet with
the supplied year 10000 (not representable by `%Y`'s four digits) the parser
returns the failure outcome, contradicting the claim's "for every supplied
year ... a parsed record exactly when the line matches the documented shape
and the matched month/day combination forms a valid calendar date". -/
theorem parse_log_line_year_counterexample :
    (regexSearch lineW).isSome = true ∧
    (parse_log_line 2026 lineW).isSome = true ∧
    parse_log_line 10000 lineW = none :=
  ⟨rfl, rfl, rfl⟩

/-- C3 (amended): `parse_log_line` is total (never raises — the regex
non-match and the caught `ValueError` both yield `none`) and returns a
record exactly when the regex search matches and the matched fields pass the
`strptime`/`datetime` validation (`validDate`: four-digit supplied year,
valid month abbreviation, day of 1–2 digits valid for that calendar month,
1–2-digit hour ≤ 23, minute ≤ 59, second ≤ 59); the record's
status/username/ip carry the matched substrings, port and pid their numeric
values, and the timestamp the supplied year. -/
theorem parse_log_line_spec (year : Nat) (line : String) :
    ((parse_log_line year line).isSome = true ↔
      ∃ g, regexSearch line = some g ∧ validDate year g = true) ∧
    (∀ g, regexSearch line = some g → validDate year g = true →
      parse_log_line year line = some
        { timestamp :=
            { year := year, month := (monthNum g.month).getD 0,
              day := digitsVal g.day, hour := digitsVal g.hh,
              minute := digitsVal g.mi, second := digitsVal g.ss }
          status := g.status
          username := String.mk g.username
          source_ip := String.mk g.ip
          port := digitsVal g.port
          pid := digitsVal g.pid }) := by
  constructor
  · unfold parse_log_line
    cases hs : regexSearch line with
    | none => simp
    | some g =>
      show (if validDate year g = true
            then some (recordOfGroups year g) else none).isSome = true ↔ _
      by_cases hv : validDate year g = true
      · rw [if_pos hv]
        simp only [Option.isSome_some, true_iff]
        exact ⟨g, rfl, hv⟩
      · rw [if_neg hv]
        simp only [Option.isSome_none, Bool.false_eq_true, false_iff]
        rintro ⟨g', hg', hv'⟩
        cases hg'
        exact hv hv'
  · intro g hg hv
    unfold parse_log_line
    rw [hg]
    show (if validDate year g = true then some (recordOfGroups year g) else none) = _
    rw [if_pos hv]
    rfl

/-- C3 (witness): the amended specification applied at year 2026 and a
concrete Accepted line, with its leftmost match's groups supplied
explicitly. -/
theorem parse_log_line_spec_witness :
    parse_log_line 2026 lineW = some
      { timestamp := { year := 2026, month := 1, day := 14, hour := 10,
                       minute := 23, second := 45 }
        status := Status.Accepted
        username := ("john.doe")
        source_ip := ("192.168.1.10")
        port := 54322
        pid := 1234 } :=
  (parse_log_line_spec 2026 lineW).2
    ⟨("Jan").data, ("14").data, ("10").data, ("23").data, ("45").data,
     ("1234").data, Status.Accepted, ("john.doe").data,
     ("192.168.1.10").data, ("54322").data⟩
    (by rfl) (by rfl)

/-- C10 (counterexample): `lineFoo` contains a substring matching the log
pattern (the pattern matches at position 0, with month group `Foo`), yet
parsing does not succeed — refuting "for every input string that contains a
substring matching the log pattern, parsing succeeds on that substring". -/
theorem search_anywhere_counterexample :
    (matchAt lineFoo.data).isSome = true ∧ parse_log_line 2026 lineFoo = none :=
  ⟨rfl, rfl⟩

/-- C10 (amended): the parser is unanchored — the regex search succeeds
exactly when the pattern matches at some position inside the line (so
arbitrary text before or after a matching substring never prevents the
match; the leftmost matching position is the one taken), and parsing returns
a record exactly when that leftmost match passes the timestamp validation. -/
theorem search_anywhere_spec (year : Nat) (line : String) :
    ((regexSearch line).isSome = true ↔
      ∃ n, (matchAt (line.data.drop n)).isSome = true) ∧
    ((parse_log_line year line).isSome = true ↔
      ∃ g, regexSearch line = some g ∧ validDate year g = true) := by
  constructor
  · exact searchFrom_isSome_iff line.data
  · unfold parse_log_line
    cases hs : regexSearch line with
    | none => simp
    | some g =>
      show (if validDate year g = true
            then some (recordOfGroups year g) else none).isSome = true ↔ _
      by_cases hv : validDate year g = true
      · rw [if_pos hv]
        simp only [Option.isSome_some, true_iff]
        exact ⟨g, rfl, hv⟩
      · rw [if_neg hv]
        simp only [Option.isSome_none, Bool.false_eq_true, false_iff]
        rintro ⟨g', hg', hv'⟩
        cases hg'
        exact hv hv'

/-- C4 (counterexample): `10.abc` is not a clean dotted-decimal literal, yet
`_is_internal_ip` returns `True` for it (the `10.` branch is a bare textual
prefix test) — refuting "any string that is not a clean dotted-decimal
classifies as False". -/
theorem is_internal_ip_counterexample :
    isCleanDottedDecimal ("10.abc") = false ∧ _is_internal_ip ("10.abc") = true :=
  ⟨rfl, rfl⟩

/-- C4 (amended): `_is_internal_ip` is a total pure function of the ip text;
it returns `True` exactly when the text starts with `10.` or `192.168.`, or
starts with `172.` and the text between the first and second dot parses as a
Python integer in `[16, 31]`; on the spec's table this matches RFC1918
membership: `10.0.0.1`, `172.16.0.1`, `172.31.255.255`, `192.168.5.5` are
internal while `172.32.0.1` and `8.8.8.8` are not. -/
theorem is_internal_ip_spec :
    (∀ ip : String, _is_internal_ip ip = true ↔
      ((("10.").data.isPrefixOf ip.data ∨ ("192.168.").data.isPrefixOf ip.data) ∨
       (("172.").data.isPrefixOf ip.data ∧
        ∃ n : Int, ((pySplit '.' ip.data).get? 1).bind pyIntParse = some n ∧
          16 ≤ n ∧ n ≤ 31))) ∧
    _is_internal_ip ("10.0.0.1") = true ∧
    _is_internal_ip ("172.16.0.1") = true ∧
    _is_internal_ip ("172.31.255.255") = true ∧
    _is_internal_ip ("172.32.0.1") = false ∧
    _is_internal_ip ("192.168.5.5") = true ∧
    _is_internal_ip ("8.8.8.8") = false := by
  refine ⟨?_, rfl, rfl, rfl, rfl, rfl, rfl⟩
  intro ip
  unfold _is_internal_ip
  by_cases h1 : (("192.168.").data.isPrefixOf ip.data ||
      ("10.").data.isPrefixOf ip.data) = true
  · rw [if_pos h1]
    simp only [Bool.or_eq_true] at h1
    constructor
    · intro _
      left
      tauto
    · intro _
      rfl
  · rw [if_neg h1]
    simp only [Bool.or_eq_true] at h1
    push_neg at h1
    by_cases h2 : ("172.").data.isPrefixOf ip.data = true
    · rw [if_pos h2]
      cases hput : (pySplit '.' ip.data).get? 1 with
      | none =>
        show false = true ↔ _
        constructor
        · intro h
          simp at h
        · rintro (h | h)
          · rcases h with h10 | h192
            · exact absurd h10 h1.2
            · exact absurd h192 h1.1
          · rcases h with ⟨_, n, hn, _⟩
            rw [Option.none_bind] at hn
            cases hn
      | some fld =>
        show (match pyIntParse fld with
              | none => false
              | some n => decide (16 ≤ n ∧ n ≤ 31)) = true ↔ _
        cases hpi : pyIntParse fld with
        | none =>
          show false = true ↔ _
          constructor
          · intro h
            simp at h
          · rintro (h | h)
            · rcases h with h10 | h192
              · exact absurd h10 h1.2
              · exact absurd h192 h1.1
            · rcases h with ⟨_, n, hn, _⟩
              rw [Option.some_bind, hpi] at hn
              cases hn
        | some n =>
          show decide (16 ≤ n ∧ n ≤ 31) = true ↔ _
          rw [decide_eq_true_iff]
          constructor
          · intro h
            right
            refine ⟨h2, n, ?_, h⟩
            rw [Option.some_bind, hpi]
          · rintro (h | h)
            · rcases h with h10 | h192
              · exact absurd h10 h1.2
              · exact absurd h192 h1.1
            · rcases h with ⟨_, m, hm, hle, hge⟩
              rw [Option.some_bind, hpi] at hm
              cases hm
              exact ⟨hle, hge⟩
    · rw [if_neg h2]
      constructor
      · intro h
        simp at h
      · rintro (h | h)
        · rcases h with h10 | h192
          · exact absurd h10 h1.2
          · exact absurd h192 h1.1
        · exact absurd h.1 h2

/-- C1: `detect_brute_force` flags a source ip iff it has Failed events and
either their count reaches `brute_force_threshold`, or the extrapolated
`attempts_per_hour` reaches half the threshold within the
`time_window_minutes` window; a zero duration (all failures at one
timestamp) makes `attempts_per_hour` equal the failed count, with no
division by zero; an ip with no Failed events is never flagged (it is not a
group key at all). -/
theorem detect_brute_force_spec (cfg : DetectorConfig) (evs : List Event) (ip : String) :
    ((detect_brute_force cfg evs).countP (fun r => decide (r.source_ip = ip)) =
      if failedEventsOf evs ip ≠ [] ∧
         (cfg.brute_force_threshold ≤ (failedEventsOf evs ip).length ∨
          ((cfg.brute_force_threshold : ℚ) / 2 ≤ attempts_per_hour evs ip ∧
           duration_minutes evs ip ≤ (cfg.time_window_minutes : ℚ)))
      then 1 else 0) ∧
    (duration_minutes evs ip = 0 →
      attempts_per_hour evs ip = ((failedEventsOf evs ip).length : ℚ)) := by
  constructor
  · have hf : ∀ a b,
        (fun ip' => if bruteForceFlag cfg evs ip'
                    then some (mkBruteForceRow evs ip') else none) a = some b →
        b.source_ip = a := by
      intro a b hab
      dsimp only at hab
      by_cases h : bruteForceFlag cfg evs a = true
      · rw [if_pos h] at hab
        cases hab
        rfl
      · rw [if_neg h] at hab
        cases hab
    rw [detect_brute_force,
      countP_filterMap_keyed BruteForceRow.source_ip _ hf (failedIps evs)
        (List.nodup_dedup _) ip]
    have hmem : ip ∈ failedIps evs ↔ failedEventsOf evs ip ≠ [] := by
      rw [failedIps, List.mem_dedup, List.mem_map]
      constructor
      · rintro ⟨e, he, rfl⟩
        rw [List.mem_filter] at he
        intro hnil
        have hmm : e ∈ failedEventsOf evs e.source_ip := by
          rw [failedEventsOf, List.mem_filter]
          refine ⟨he.1, ?_⟩
          simp [he.2]
        rw [hnil] at hmm
        cases hmm
      · intro hne
        obtain ⟨e, he⟩ := List.exists_mem_of_ne_nil _ hne
        rw [failedEventsOf, List.mem_filter] at he
        obtain ⟨hmem, hcond⟩ := he
        simp only [Bool.and_eq_true, decide_eq_true_iff] at hcond
        refine ⟨e, ?_, hcond.2⟩
        rw [List.mem_filter]
        exact ⟨hmem, hcond.1⟩
    have hsome :
        ((if bruteForceFlag cfg evs ip
          then some (mkBruteForceRow evs ip) else none).isSome = true) ↔
        (cfg.brute_force_threshold ≤ (failedEventsOf evs ip).length ∨
         ((cfg.brute_force_threshold : ℚ) / 2 ≤ attempts_per_hour evs ip ∧
          duration_minutes evs ip ≤ (cfg.time_window_minutes : ℚ))) := by
      have hflag : bruteForceFlag cfg evs ip = true ↔
          (cfg.brute_force_threshold ≤ (failedEventsOf evs ip).length ∨
           ((cfg.brute_force_threshold : ℚ) / 2 ≤ attempts_per_hour evs ip ∧
            duration_minutes evs ip ≤ (cfg.time_window_minutes : ℚ))) := by
        rw [bruteForceFlag]
        simp only [Bool.or_eq_true, Bool.and_eq_true, decide_eq_true_iff]
      by_cases h : bruteForceFlag cfg evs ip = true
      · rw [if_pos h]
        simp only [Option.isSome_some, true_iff]
        exact hflag.mp h
      · rw [if_neg h]
        simp only [Option.isSome_none, Bool.false_eq_true, false_iff]
        intro hc
        exact h (hflag.mpr hc)
    exact if_congr (and_congr hmem hsome) rfl rfl
  · intro h
    rw [attempts_per_hour, if_neg]
    rw [h]
    exact lt_irrefl 0

/-- C6: `detect_unusual_usernames` emits exactly one row per
`(source_ip, username)` pair whose username is in the fixed vulnerable set
and which has at least 5 Failed events; the row's `attempts` is that count
and severity is HIGH iff attempts exceed 20; pairs with fewer failures,
other usernames, and Accepted events contribute nothing. -/
theorem detect_unusual_usernames_spec (evs : List Event) (ip user : String) :
    ((detect_unusual_usernames evs).countP
        (fun r => decide ((r.source_ip, r.username) = (ip, user))) =
      if user ∈ vulnerable_accounts ∧ 5 ≤ pairAttempts evs ip user
      then 1 else 0) ∧
    ((detect_unusual_usernames evs).all (fun r =>
      r.attempts = pairAttempts evs r.source_ip r.username &&
      r.severity = (if 20 < r.attempts then Severity.HIGH else Severity.MEDIUM)) = true) := by
  constructor
  · have hf : ∀ (a : String × String) (b : VulnerableRow),
        (fun p => if 5 ≤ pairAttempts evs p.1 p.2 then
          some { source_ip := p.1, username := p.2, attempts := pairAttempts evs p.1 p.2,
                 severity := if 20 < pairAttempts evs p.1 p.2
                             then Severity.HIGH else Severity.MEDIUM }
          else none) a = some b →
        (b.source_ip, b.username) = a := by
      intro a b hab
      dsimp only at hab
      by_cases h : 5 ≤ pairAttempts evs a.1 a.2
      · rw [if_pos h] at hab
        cases hab
        rfl
      · rw [if_neg h] at hab
        cases hab
    have hkey := countP_filterMap_keyed (fun r : VulnerableRow => (r.source_ip, r.username))
      _ hf (vulnerablePairs evs) (List.nodup_dedup _) (ip, user)
    rw [detect_unusual_usernames]
    rw [hkey]
    dsimp only
    have hmem : (ip, user) ∈ vulnerablePairs evs ↔
        (user ∈ vulnerable_accounts ∧ 1 ≤ pairAttempts evs ip user) := by
      rw [vulnerablePairs, List.mem_dedup, List.mem_map]
      constructor
      · rintro ⟨e, he, hpair⟩
        rw [List.mem_filter] at he
        obtain ⟨hmm, hcond⟩ := he
        simp only [Bool.and_eq_true, decide_eq_true_iff] at hcond
        obtain ⟨hfail, hvuln⟩ := hcond
        obtain ⟨hip, huser⟩ := Prod.mk.injEq .. ▸ hpair
        refine ⟨huser ▸ hvuln, ?_⟩
        have : e ∈ evs.filter (fun e' =>
            is_failed_login e' && e'.source_ip = ip && e'.username = user) := by
          rw [List.mem_filter]
          refine ⟨hmm, ?_⟩
          simp [hfail, hip, huser]
        rw [pairAttempts]
        have hne2 : evs.filter (fun e' =>
            is_failed_login e' && e'.source_ip = ip && e'.username = user) ≠ [] := by
          intro hnil
          rw [hnil] at this
          cases this
        have hlen := List.length_pos.mpr hne2
        omega
      · rintro ⟨hvuln, hone⟩
        rw [pairAttempts] at hone
        have hne : evs.filter (fun e' =>
            is_failed_login e' && e'.source_ip = ip && e'.username = user) ≠ [] := by
          intro hnil
          rw [hnil] at hone
          simp at hone
        obtain ⟨e, he⟩ := List.exists_mem_of_ne_nil _ hne
        rw [List.mem_filter] at he
        obtain ⟨hmm, hcond⟩ := he
        simp only [Bool.and_eq_true, decide_eq_true_iff] at hcond
        refine ⟨e, ?_, ?_⟩
        · rw [List.mem_filter]
          refine ⟨hmm, ?_⟩
          simp [hcond.1.1, hcond.2, hvuln]
        · simp [hcond.1.2, hcond.2]
    have hsome :
        ((if 5 ≤ pairAttempts evs ip user then
          some ({ source_ip := ip, username := user, attempts := pairAttempts evs ip user,
                  severity := if 20 < pairAttempts evs ip user
                              then Severity.HIGH else Severity.MEDIUM } : VulnerableRow)
          else none).isSome = true) ↔ 5 ≤ pairAttempts evs ip user := by
      by_cases h : 5 ≤ pairAttempts evs ip user
      · rw [if_pos h]
        simp only [Option.isSome_some, true_iff]
        exact h
      · rw [if_neg h]
        simp only [Option.isSome_none, Bool.false_eq_true, false_iff]
        exact h
    have hiff : ((ip, user) ∈ vulnerablePairs evs ∧
        (if 5 ≤ pairAttempts evs ip user then
          some ({ source_ip := ip, username := user, attempts := pairAttempts evs ip user,
                  severity := if 20 < pairAttempts evs ip user
                              then Severity.HIGH else Severity.MEDIUM } : VulnerableRow)
          else none).isSome = true) ↔
        (user ∈ vulnerable_accounts ∧ 5 ≤ pairAttempts evs ip user) := by
      rw [and_congr hmem hsome]
      constructor
      · rintro ⟨⟨hv, _⟩, h5⟩
        exact ⟨hv, h5⟩
      · rintro ⟨hv, h5⟩
        exact ⟨⟨hv, by omega⟩, h5⟩
    by_cases hc : user ∈ vulnerable_accounts ∧ 5 ≤ pairAttempts evs ip user
    · rw [if_pos (hiff.mpr hc), if_pos hc]
    · rw [if_neg (fun hh => hc (hiff.mp hh)), if_neg hc]
  · rw [detect_unusual_usernames, List.all_eq_true]
    intro r hr
    rw [List.mem_filterMap] at hr
    obtain ⟨p, _, hp⟩ := hr
    dsimp only at hp
    by_cases h : 5 ≤ pairAttempts evs p.1 p.2
    · rw [if_pos h] at hp
      cases hp
      simp
    · rw [if_neg h] at hp
      cases hp

/-- C5: `detect_geographic_anomalies` emits exactly one row per external
(non-internal) source ip whose literal starts with one of the fixed
suspicious prefixes, the first matching prefix in table order giving the
location; the row aggregates over all of that ip's events: total attempts,
failed attempts, successes as the difference, and severity HIGH iff more
than 10 failures; internal ips and non-matching external ips yield no row. -/
theorem detect_geographic_anomalies_spec (evs : List Event) (ip : String) :
    ((detect_geographic_anomalies evs).countP (fun r => decide (r.source_ip = ip)) =
      if (∃ e ∈ evs, e.source_ip = ip) ∧ _is_internal_ip ip = false ∧
         (suspiciousLocation ip).isSome = true
      then 1 else 0) ∧
    ((detect_geographic_anomalies evs).all (fun r =>
      suspiciousLocation r.source_ip = some r.location &&
      r.total_attempts = (ipEvents evs r.source_ip).length &&
      r.failed_attempts = ((ipEvents evs r.source_ip).filter is_failed_login).length &&
      r.success_attempts = r.total_attempts - r.failed_attempts &&
      r.severity = (if 10 < r.failed_attempts then Severity.HIGH else Severity.MEDIUM)) = true) := by
  constructor
  · have hf : ∀ (a : String) (b : GeoRow),
        (fun ip' =>
          match suspiciousLocation ip' with
          | none => none
          | some loc =>
            let attempts := (ipEvents evs ip').length
            let failed := ((ipEvents evs ip').filter is_failed_login).length
            some { source_ip := ip'
                   location := loc
                   total_attempts := attempts
                   failed_attempts := failed
                   success_attempts := attempts - failed
                   severity := if 10 < failed then Severity.HIGH else Severity.MEDIUM }) a
          = some b → b.source_ip = a := by
      intro a b hab
      dsimp only at hab
      cases hloc : suspiciousLocation a with
      | none => rw [hloc] at hab; cases hab
      | some loc =>
        rw [hloc] at hab
        cases hab
        rfl
    have hkey := countP_filterMap_keyed GeoRow.source_ip _ hf (externalIps evs)
      (List.nodup_dedup _) ip
    rw [detect_geographic_anomalies]
    rw [hkey]
    dsimp only
    have hmem : ip ∈ externalIps evs ↔
        ((∃ e ∈ evs, e.source_ip = ip) ∧ _is_internal_ip ip = false) := by
      rw [externalIps, List.mem_dedup, List.mem_map]
      constructor
      · rintro ⟨e, he, rfl⟩
        rw [List.mem_filter] at he
        obtain ⟨hmm, hcond⟩ := he
        simp only [Bool.not_eq_true'] at hcond
        exact ⟨⟨e, hmm, rfl⟩, hcond⟩
      · rintro ⟨⟨e, hmm, hip⟩, hint⟩
        refine ⟨e, ?_, hip⟩
        rw [List.mem_filter]
        refine ⟨hmm, ?_⟩
        rw [hip]
        simp [hint]
    have hsome :
        ((match suspiciousLocation ip with
          | none => none
          | some loc =>
            let attempts := (ipEvents evs ip).length
            let failed := ((ipEvents evs ip).filter is_failed_login).length
            some ({ source_ip := ip
                    location := loc
                    total_attempts := attempts
                    failed_attempts := failed
                    success_attempts := attempts - failed
                    severity := if 10 < failed then Severity.HIGH
                                else Severity.MEDIUM } : GeoRow)).isSome = true) ↔
        (suspiciousLocation ip).isSome = true := by
      cases hloc : suspiciousLocation ip with
      | none => simp
      | some loc => simp
    have hiff : (ip ∈ externalIps evs ∧
        (match suspiciousLocation ip with
          | none => none
          | some loc =>
            let attempts := (ipEvents evs ip).length
            let failed := ((ipEvents evs ip).filter is_failed_login).length
            some ({ source_ip := ip
                    location := loc
                    total_attempts := attempts
                    failed_attempts := failed
                    success_attempts := attempts - failed
                    severity := if 10 < failed then Severity.HIGH
                                else Severity.MEDIUM } : GeoRow)).isSome = true) ↔
        ((∃ e ∈ evs, e.source_ip = ip) ∧ _is_internal_ip ip = false ∧
         (suspiciousLocation ip).isSome = true) := by
      rw [and_congr hmem hsome, and_assoc]
    by_cases hc : (∃ e ∈ evs, e.source_ip = ip) ∧ _is_internal_ip ip = false ∧
        (suspiciousLocation ip).isSome = true
    · rw [if_pos (hiff.mpr hc), if_pos hc]
    · rw [if_neg (fun hh => hc (hiff.mp hh)), if_neg hc]
  · rw [detect_geographic_anomalies, List.all_eq_true]
    intro r hr
    rw [List.mem_filterMap] at hr
    obtain ⟨a, _, ha⟩ := hr
    dsimp only at ha
    cases hloc : suspiciousLocation a with
    | none => rw [hloc] at ha; cases ha
    | some loc =>
      rw [hloc] at ha
      cases ha
      simp [hloc]

/-- A row that is not a failed login is an Accepted one. -/
theorem not_failed_iff_accepted (e : Event) :
    is_failed_login e = false ↔ e.status = Status.Accepted := by
  rw [is_failed_login]
  cases h : e.status <;> simp [h]

/-- C2: per source ip, with that ip's events in chronological order (stable
on input order for equal timestamps), let `k` be the number of events
strictly before the first Accepted one (all of them Failed, and the first
Accepted row sits at index `k`); a breach row is emitted iff the ip has an
Accepted event and `k ≥ 5`, carrying the username and timestamp of that
first Accepted event, `failed_attempts_before_success = k`, and severity
CRITICAL iff `k > 20`; an ip with no Accepted event yields nothing. -/
theorem detect_breaches_spec (evs : List Event) (ip : String) :
    ((detect_successful_after_many_failures evs).countP
        (fun r => decide (r.source_ip = ip)) =
      if (∃ e ∈ evs, e.source_ip = ip ∧ e.status = Status.Accepted) ∧
         5 ≤ preSuccessCount (sortedIpEvents evs ip)
      then 1 else 0) ∧
    ((detect_successful_after_many_failures evs).all (fun b =>
      match firstAccepted (sortedIpEvents evs b.source_ip) with
      | none => false
      | some e =>
        b.username = e.username && b.breach_timestamp = e.timestamp &&
        b.failed_attempts_before_success =
          preSuccessCount (sortedIpEvents evs b.source_ip) &&
        b.severity = (if 20 < preSuccessCount (sortedIpEvents evs b.source_ip)
                      then Severity.CRITICAL else Severity.HIGH)) = true) ∧
    ((sortedIpEvents evs ip).take (preSuccessCount (sortedIpEvents evs ip))).all
      is_failed_login = true ∧
    firstAccepted (sortedIpEvents evs ip) =
      ((sortedIpEvents evs ip).drop (preSuccessCount (sortedIpEvents evs ip))).head? := by
  refine ⟨?_, ?_, take_preSuccessCount_all_failed _, firstAccepted_eq_head_drop _⟩
  · have hf : ∀ (a : String) (b : BreachRow),
        (fun ip' =>
          (firstAccepted (sortedIpEvents evs ip')).bind (fun e =>
            if 5 ≤ preSuccessCount (sortedIpEvents evs ip') then
              some { source_ip := ip'
                     username := e.username
                     failed_attempts_before_success := preSuccessCount (sortedIpEvents evs ip')
                     breach_timestamp := e.timestamp
                     severity := if 20 < preSuccessCount (sortedIpEvents evs ip')
                                 then Severity.CRITICAL else Severity.HIGH }
            else none)) a = some b → b.source_ip = a := by
      intro a b hab
      dsimp only at hab
      cases hfa : firstAccepted (sortedIpEvents evs a) with
      | none => rw [hfa, Option.none_bind] at hab; cases hab
      | some e =>
        rw [hfa, Option.some_bind] at hab
        by_cases hk : 5 ≤ preSuccessCount (sortedIpEvents evs a)
        · rw [if_pos hk] at hab
          cases hab
          rfl
        · rw [if_neg hk] at hab
          cases hab
    have hkey := countP_filterMap_keyed BreachRow.source_ip _ hf (allIps evs)
      (List.nodup_dedup _) ip
    rw [detect_successful_after_many_failures]
    rw [hkey]
    have haccmem : (∃ x ∈ sortedIpEvents evs ip, (!is_failed_login x) = true) ↔
        (∃ e ∈ evs, e.source_ip = ip ∧ e.status = Status.Accepted) := by
      constructor
      · rintro ⟨x, hx, hacc⟩
        rw [sortedIpEvents, mem_sortByTime, ipEvents, List.mem_filter] at hx
        obtain ⟨hmm, hip⟩ := hx
        simp only [decide_eq_true_iff] at hip
        rw [Bool.not_eq_true'] at hacc
        exact ⟨x, hmm, hip, (not_failed_iff_accepted x).mp hacc⟩
      · rintro ⟨e, hmm, hip, hacc⟩
        refine ⟨e, ?_, ?_⟩
        · rw [sortedIpEvents, mem_sortByTime, ipEvents, List.mem_filter]
          exact ⟨hmm, by simp [hip]⟩
        · rw [Bool.not_eq_true']
          exact (not_failed_iff_accepted e).mpr hacc
    have hiff : (ip ∈ allIps evs ∧
        ((firstAccepted (sortedIpEvents evs ip)).bind (fun e =>
          if 5 ≤ preSuccessCount (sortedIpEvents evs ip) then
            some ({ source_ip := ip
                    username := e.username
                    failed_attempts_before_success := preSuccessCount (sortedIpEvents evs ip)
                    breach_timestamp := e.timestamp
                    severity := if 20 < preSuccessCount (sortedIpEvents evs ip)
                                then Severity.CRITICAL
                                else Severity.HIGH } : BreachRow)
          else none)).isSome = true) ↔
        ((∃ e ∈ evs, e.source_ip = ip ∧ e.status = Status.Accepted) ∧
         5 ≤ preSuccessCount (sortedIpEvents evs ip)) := by
      constructor
      · rintro ⟨_, hsome⟩
        cases hfa : firstAccepted (sortedIpEvents evs ip) with
        | none =>
          rw [hfa, Option.none_bind] at hsome
          cases hsome
        | some e =>
          rw [hfa, Option.some_bind] at hsome
          by_cases hk : 5 ≤ preSuccessCount (sortedIpEvents evs ip)
          · refine ⟨?_, hk⟩
            have hpe := List.find?_some hfa
            have hmemx := List.mem_of_find?_eq_some hfa
            exact haccmem.mp ⟨e, hmemx, hpe⟩
          · rw [if_neg hk] at hsome
            cases hsome
      · rintro ⟨hacc, hk⟩
        obtain ⟨x, hx, hxa⟩ := haccmem.mpr hacc
        constructor
        · obtain ⟨e, hmm, hip, _⟩ := hacc
          rw [allIps, List.mem_dedup, List.mem_map]
          exact ⟨e, hmm, hip⟩
        · cases hfa : firstAccepted (sortedIpEvents evs ip) with
          | none =>
            exfalso
            rw [firstAccepted, List.find?_eq_none] at hfa
            exact hfa x hx hxa
          | some e =>
            rw [Option.some_bind, if_pos hk]
            rfl
    by_cases hc : (∃ e ∈ evs, e.source_ip = ip ∧ e.status = Status.Accepted) ∧
        5 ≤ preSuccessCount (sortedIpEvents evs ip)
    · rw [if_pos (hiff.mpr hc), if_pos hc]
    · rw [if_neg (fun hh => hc (hiff.mp hh)), if_neg hc]
  · rw [detect_successful_after_many_failures, List.all_eq_true]
    intro r hr
    rw [List.mem_filterMap] at hr
    obtain ⟨a, _, ha⟩ := hr
    cases hfa : firstAccepted (sortedIpEvents evs a) with
    | none => rw [hfa, Option.none_bind] at ha; cases ha
    | some e =>
      rw [hfa, Option.some_bind] at ha
      by_cases hk : 5 ≤ preSuccessCount (sortedIpEvents evs a)
      · rw [if_pos hk] at ha
        cases ha
        dsimp only
        rw [hfa]
        simp
      · rw [if_neg hk] at ha
        cases ha

/-- C7: the report's `total_anomalies` is the sum of the four collection
sizes and `critical_threats` counts the breaches plus the CRITICAL
brute-force rows; the empty EventSet short-circuits to the zeroed report
with four empty collections (the empty branch returns literals and invokes
no detector). -/
theorem generate_full_report_spec (cfg : DetectorConfig) (evs : List Event) :
    ((generate_full_report cfg evs).summary.lookup ("total_anomalies") =
      some ((generate_full_report cfg evs).brute_force_attacks.length +
            (generate_full_report cfg evs).vulnerable_account_targeting.length +
            (generate_full_report cfg evs).geographic_anomalies.length +
            (generate_full_report cfg evs).possible_breaches.length)) ∧
    ((generate_full_report cfg evs).summary.lookup ("critical_threats") =
      some ((generate_full_report cfg evs).possible_breaches.length +
            (generate_full_report cfg evs).brute_force_attacks.countP
              (fun r => decide (r.severity = Severity.CRITICAL)))) ∧
    (generate_full_report cfg [] =
      { brute_force_attacks := []
        vulnerable_account_targeting := []
        geographic_anomalies := []
        possible_breaches := []
        summary := [(("total_anomalies"), 0), (("critical_threats"), 0)] }) := by
  refine ⟨?_, ?_, rfl⟩ <;> cases evs <;> rfl

/-- C8 (counterexample): on the empty EventSet the short-circuit summary
carries only the two headline keys — none of the four per-type count keys is
present, contradicting "for every run, including a run over an empty
EventSet, the summary contains the per-type counts". -/
theorem summary_per_type_counterexample :
    ((generate_full_report defaultConfig []).summary.lookup ("brute_force_count") = none) ∧
    ((generate_full_report defaultConfig []).summary.lookup ("vulnerable_account_count") = none) ∧
    ((generate_full_report defaultConfig []).summary.lookup ("geographic_count") = none) ∧
    ((generate_full_report defaultConfig []).summary.lookup ("breach_count") = none) :=
  ⟨rfl, rfl, rfl, rfl⟩

/-- C8 (amended): on every non-empty EventSet the summary carries the four
per-type counts, each equal to the size of the matching collection (the
empty EventSet's summary has only `total_anomalies` and `critical_threats`). -/
theorem summary_per_type_counts (cfg : DetectorConfig) (evs : List Event)
    (h : evs ≠ []) :
    ((generate_full_report cfg evs).summary.lookup ("brute_force_count") =
      some (generate_full_report cfg evs).brute_force_attacks.length) ∧
    ((generate_full_report cfg evs).summary.lookup ("vulnerable_account_count") =
      some (generate_full_report cfg evs).vulnerable_account_targeting.length) ∧
    ((generate_full_report cfg evs).summary.lookup ("geographic_count") =
      some (generate_full_report cfg evs).geographic_anomalies.length) ∧
    ((generate_full_report cfg evs).summary.lookup ("breach_count") =
      some (generate_full_report cfg evs).possible_breaches.length) := by
  cases evs with
  | nil => exact absurd rfl h
  | cons e es => exact ⟨rfl, rfl, rfl, rfl⟩

/-- C8 (witness): the amended statement applied to a concrete one-event set. -/
theorem summary_per_type_counts_witness :
    ([eventW] ≠ ([] : List Event)) ∧
    (((generate_full_report defaultConfig [eventW]).summary.lookup ("brute_force_count") =
      some (generate_full_report defaultConfig [eventW]).brute_force_attacks.length) ∧
    ((generate_full_report defaultConfig [eventW]).summary.lookup ("vulnerable_account_count") =
      some (generate_full_report defaultConfig [eventW]).vulnerable_account_targeting.length) ∧
    ((generate_full_report defaultConfig [eventW]).summary.lookup ("geographic_count") =
      some (generate_full_report defaultConfig [eventW]).geographic_anomalies.length) ∧
    ((generate_full_report defaultConfig [eventW]).summary.lookup ("breach_count") =
      some (generate_full_report defaultConfig [eventW]).possible_breaches.length)) :=
  ⟨by simp, summary_per_type_counts defaultConfig [eventW] (by simp)⟩

/-- C1 (witness): two Failed events at an identical timestamp give a zero
duration, and the specification then yields `attempts_per_hour` equal to the
failed count — no division by zero. -/
theorem detect_brute_force_spec_witness :
    attempts_per_hour evsBF ("5.5.5.5") =
      ((failedEventsOf evsBF ("5.5.5.5")).length : ℚ) :=
  (detect_brute_force_spec defaultConfig evsBF ("5.5.5.5")).2 (by
    have h1 : lastAttempt evsBF ("5.5.5.5") = 1000 := rfl
    have h2 : firstAttempt evsBF ("5.5.5.5") = 1000 := rfl
    rw [duration_minutes, h1, h2]
    norm_num)
